import Mathlib

/-!
Shallow embedding of the notification-api repository.

The embedding covers:
* the Socket.IO connection registry (src/sockets/index.js): the
  process-wide map from receiver id to the set of live socket ids, with
  the subscribe / unsubscribe / disconnect handlers, the send helper and
  the online predicate;
* the Notification mongoose model (schema defaults) and the four Express
  routes of routes/notifications.js: create-and-deliver (POST), list
  (GET), mark-read (PATCH /:id/read) and mark-all-read
  (PATCH /:receiverId/read-all).

The Mongo collection is modelled as a list of documents, Mongo queries as
boolean predicates built exactly the way the routes build their query
objects, and JS truthiness on optional string fields as the check that
the field is absent or the empty string.
-/

namespace NotifApi

/-- A JSON-like structured value, used for the Mixed payload field. -/
inductive Json where
  | null : Json
  | bool : Bool → Json
  | num : Int → Json
  | str : String → Json
  | arr : List Json → Json
  | obj : List (String × Json) → Json

/-- JS truthiness on a Json value: null, false, 0 and "" are falsy. -/
def Json.isFalsy : Json → Bool
  | .null => true
  | .bool b => !b
  | .num n => n == 0
  | .str s => s == ""
  | _ => false

/-- The connection registry (activeConnections in src/sockets/index.js):
an association list mapping a receiverId to the set of live socket ids,
the set being kept as a duplicate-free list. -/
abbrev Registry := List (String × List String)

/-- Map lookup: the set tracked for a receiverId, if an entry exists. -/
def lookupSet (reg : Registry) (receiverId : String) : Option (List String) :=
  (reg.find? (fun e => e.1 == receiverId)).map (fun e => e.2)

/-- Set.add: add a socket id to a set (no-op when already present). -/
def setAdd (s : List String) (sid : String) : List String :=
  if sid ∈ s then s else s ++ [sid]

/-- Set.delete: remove a socket id from a set (no-op when absent). -/
def setDelete (s : List String) (sid : String) : List String :=
  s.filter (fun x => x != sid)

/-- Replace the set stored under a receiverId. -/
def updateSet (reg : Registry) (receiverId : String) (s : List String) : Registry :=
  reg.map (fun e => if e.1 == receiverId then (e.1, s) else e)

/-- The subscribe handler (src/sockets/index.js lines 20-37): a falsy
receiverId is answered with an error event and changes nothing;
otherwise the socket id is added to the receiver's set, which is created
first when absent. -/
def subscribe (reg : Registry) (receiverId sid : String) : Registry :=
  if receiverId == "" then reg
  else
    match lookupSet reg receiverId with
    | none => reg ++ [(receiverId, setAdd [] sid)]
    | some s => updateSet reg receiverId (setAdd s sid)

/-- The unsubscribe handler (lines 40-48): the socket id is removed from
the receiver's set when an entry exists; the entry itself is never
removed, even when the set becomes empty. -/
def unsubscribe (reg : Registry) (receiverId sid : String) : Registry :=
  match lookupSet reg receiverId with
  | none => reg
  | some s => updateSet reg receiverId (setDelete s sid)

/-- The disconnect handler (lines 51-60): the socket id is removed from
every tracked set, and every entry whose set became empty is removed. -/
def onDisconnect (reg : Registry) (sid : String) : Registry :=
  (reg.map (fun e => (e.1, setDelete e.2 sid))).filter (fun e => !e.2.isEmpty)

/-- isReceiverOnline (lines 79-82): the map has an entry for the
receiverId and its set has positive size. -/
def isReceiverOnline (reg : Registry) (receiverId : String) : Bool :=
  match lookupSet reg receiverId with
  | none => false
  | some s => decide (s.length > 0)

/-- The event projection pushed over the socket by the POST route. -/
structure PushEvent where
  id : Nat
  type : String
  payload : Json
  channel : String
  senderId : Option String
  createdAt : Nat

/-- sendNotification (lines 67-76): returns false when the Socket.IO
server has not been initialized; otherwise emits to the receiver's room
and returns true unconditionally — the registry is never consulted. -/
def sendNotification (ioInitialized : Bool) (receiverId : String)
    (event : PushEvent) : Bool :=
  if !ioInitialized then false
  else true

/-- One socket-side operation on the registry. -/
inductive RegOp where
  | sub (receiverId sid : String)
  | unsub (receiverId sid : String)
  | disc (sid : String)

/-- Apply one socket-side operation. -/
def applyRegOp (reg : Registry) : RegOp → Registry
  | .sub r sid => subscribe reg r sid
  | .unsub r sid => unsubscribe reg r sid
  | .disc sid => onDisconnect reg sid

/-- Run a sequence of socket-side operations from the initial (empty)
registry the module starts with. -/
def runRegOps (ops : List RegOp) : Registry :=
  ops.foldl applyRegOp []

/-- The registry holds no entry whose set is empty. -/
def NoEmptySets (reg : Registry) : Prop :=
  ∀ e ∈ reg, e.2 ≠ []

instance (reg : Registry) : Decidable (NoEmptySets reg) := by
  unfold NoEmptySets; infer_instance

/-- The keys of the registry are pairwise distinct; every state reachable
through the handlers satisfies this, since subscribe appends a key only
when it is absent. -/
def KeysNodup (reg : Registry) : Prop :=
  (reg.map Prod.fst).Nodup

/-- A Notification document as shaped by models/Notification.js:
required receiverId and type, Mixed payload defaulting to the empty
object, read defaulting to false, nullable appId and senderId, channel
defaulting to "default", and the two timestamps. Mongo object ids are
modelled as naturals. -/
structure Notification where
  id : Nat
  receiverId : String
  type : String
  payload : Json
  read : Bool
  appId : Option String
  senderId : Option String
  channel : String
  createdAt : Nat
  updatedAt : Nat

/-- The Mongo collection, as the list of stored documents. -/
abbrev Store := List Notification

/-- JS truthiness test on an optional string field of a request: the
field is falsy when absent or the empty string. -/
def falsy : Option String → Bool
  | none => true
  | some s => s == ""

/-- An optional query parameter as the routes use it in an
if-truthy-then-add-to-query step: an empty string counts as not
supplied. -/
def truthyParam : Option String → Option String
  | none => none
  | some s => if s == "" then none else some s

/-- The body of a POST /api/notifications request; every field is
optional at the HTTP level. -/
structure CreateReq where
  receiverId : Option String
  type : Option String
  payload : Option Json
  appId : Option String
  senderId : Option String
  channel : Option String

/-- Outcome of the POST route. -/
inductive PostRes where
  | badRequest (message : String)
  | created (notification : Notification) (delivered : Bool)

/-- Observable effects of the POST route, used to state the order of
persistence and push within one call. -/
inductive Effect where
  | persist (id : Nat)
  | pushAttempt (receiverId : String) (id : Nat)

/-- The POST / route (routes/notifications.js lines 94-130): reject when
receiverId or type is falsy; otherwise store the new document (payload
falls back to the empty object, channel to "default", read to false) and
then call sendNotification with the event projection, returning 201 with
the document and the delivered boolean. nextId and now stand for the
generated object id and the current time. -/
def routerPost (st : Store) (ioInitialized : Bool) (nextId now : Nat)
    (req : CreateReq) : Store × PostRes × List Effect :=
  if falsy req.receiverId || falsy req.type then
    (st, .badRequest "Missing required fields: receiverId, type", [])
  else
    let receiverId := req.receiverId.getD ""
    let n : Notification :=
      { id := nextId
        receiverId := receiverId
        type := req.type.getD ""
        payload :=
          match req.payload with
          | none => .obj []
          | some p => if p.isFalsy then .obj [] else p
        read := false
        appId := req.appId
        senderId := req.senderId
        channel := req.channel.getD "default"
        createdAt := now
        updatedAt := now }
    let delivered := sendNotification ioInitialized receiverId
      { id := n.id, type := n.type, payload := n.payload,
        channel := n.channel, senderId := n.senderId,
        createdAt := n.createdAt }
    (st ++ [n], .created n delivered,
      [.persist nextId, .pushAttempt receiverId nextId])

/-- The query string of a GET /api/notifications/:receiverId request. -/
structure ListQuery where
  appId : Option String
  unreadOnly : Option String
  type : Option String
  channel : Option String
  limit : Nat
  skip : Nat

/-- Outcome of the GET route. -/
inductive ListRes where
  | badRequest (message : String)
  | ok (notifications : List Notification) (total unreadCount : Nat)
      (isOnline : Bool)

/-- The base Mongo query object of the GET route: exact match on
receiverId and appId (a document whose appId is null never matches a
string appId). -/
def matchesBase (n : Notification) (receiverId appId : String) : Bool :=
  n.receiverId == receiverId && n.appId == some appId

/-- The full find query of the GET route: the base query plus read=false
when unreadOnly is the string "true", plus type and channel when those
parameters are truthy. -/
def matchesListQuery (n : Notification) (receiverId appId : String)
    (q : ListQuery) : Bool :=
  matchesBase n receiverId appId
    && (if q.unreadOnly == some "true" then n.read == false else true)
    && (match truthyParam q.type with
        | none => true
        | some t => n.type == t)
    && (match truthyParam q.channel with
        | none => true
        | some c => n.channel == c)

/-- Insert a document into a list sorted by createdAt descending. -/
def insertDesc (n : Notification) : List Notification → List Notification
  | [] => [n]
  | m :: t =>
    if m.createdAt < n.createdAt then n :: m :: t else m :: insertDesc n t

/-- Mongo sort on createdAt descending (newest first), modelled as an
insertion sort; the claims depend only on the output being ordered
newest first, i.e. on it being a permutation of the input. -/
def sortNewestFirst : List Notification → List Notification
  | [] => []
  | n :: t => insertDesc n (sortNewestFirst t)

/-- The GET /:receiverId route (lines 184-216): 400 when appId is falsy;
otherwise the filtered, sorted, paginated page, the total count over the
base query, the unread count over the base query plus read=false, and
the online flag from the registry. -/
def routerGet (st : Store) (reg : Registry) (receiverId : String)
    (q : ListQuery) : ListRes :=
  if falsy q.appId then
    .badRequest "Missing required query parameter: appId"
  else
    let appId := q.appId.getD ""
    .ok
      (((sortNewestFirst
          (st.filter (fun n => matchesListQuery n receiverId appId q))).drop
            q.skip).take q.limit)
      (st.countP (fun n => matchesBase n receiverId appId))
      (st.countP (fun n => matchesBase n receiverId appId && n.read == false))
      (isReceiverOnline reg receiverId)

/-- Outcome of the PATCH /:id/read route. -/
inductive MarkReadRes where
  | notFound (message : String)
  | ok (notification : Notification)

/-- The update applied by findByIdAndUpdate(id, \x7b read: true \x7d):
read is set and, through the schema's timestamps option, updatedAt is
refreshed. -/
def markReadDoc (n : Notification) (now : Nat) : Notification :=
  { n with read := true, updatedAt := now }

/-- The PATCH /:id/read route (lines 237-253): update the document with
the given id to read=true and return it (new: true), or 404 when no
document has that id. -/
def routerPatchRead (st : Store) (id : Nat) (now : Nat) :
    Store × MarkReadRes :=
  match st.find? (fun n => n.id == id) with
  | none => (st, .notFound "Notification not found")
  | some n =>
      (st.map (fun m => if m.id == id then markReadDoc m now else m),
       .ok (markReadDoc n now))

/-- Outcome of the PATCH /:receiverId/read-all route. -/
inductive ReadAllRes where
  | badRequest (message : String)
  | ok (modifiedCount : Nat)

/-- The updateMany query of the read-all route: receiverId, appId,
read=false, plus type and channel when those parameters are truthy. -/
def matchesReadAll (n : Notification) (receiverId appId : String)
    (typeQ channelQ : Option String) : Bool :=
  n.receiverId == receiverId && n.appId == some appId && n.read == false
    && (match truthyParam typeQ with
        | none => true
        | some t => n.type == t)
    && (match truthyParam channelQ with
        | none => true
        | some c => n.channel == c)

/-- The PATCH /:receiverId/read-all route (lines 290-308): 400 when
appId is falsy; otherwise set read=true (refreshing updatedAt) on every
matching document and return how many were modified. -/
def routerPatchReadAll (st : Store) (receiverId : String)
    (appId typeQ channelQ : Option String) (now : Nat) :
    Store × ReadAllRes :=
  if falsy appId then
    (st, .badRequest "Missing required query parameter: appId")
  else
    let a := appId.getD ""
    (st.map (fun n =>
        if matchesReadAll n receiverId a typeQ channelQ then
          { n with read := true, updatedAt := now }
        else n),
     .ok (st.countP (fun n => matchesReadAll n receiverId a typeQ channelQ)))

/-- One store-mutating operation of the HTTP surface. -/
inductive SysOp where
  | post (ioInitialized : Bool) (nextId now : Nat) (req : CreateReq)
  | markRead (id now : Nat)
  | markAllRead (receiverId : String) (appId typeQ channelQ : Option String)
      (now : Nat)

/-- The store after one operation. -/
def applySysOp (st : Store) : SysOp → Store
  | .post ioInit nextId now req => (routerPost st ioInit nextId now req).1
  | .markRead id now => (routerPatchRead st id now).1
  | .markAllRead r a t c now => (routerPatchReadAll st r a t c now).1

/-- The read flag of the document a lookup by id finds. -/
def readOf (st : Store) (id : Nat) : Option Bool :=
  (st.find? (fun n => n.id == id)).map (fun n => n.read)

/-- A sample stored document used to instantiate witnesses. -/
def sampleDoc : Notification :=
  { id := 1, receiverId := "u1", type := "order", payload := .obj [],
    read := false, appId := some "app1", senderId := none,
    channel := "default", createdAt := 10, updatedAt := 10 }

/-- A sample valid creation request used to instantiate witnesses. -/
def sampleReq : CreateReq :=
  { receiverId := some "u1", type := some "order", payload := none,
    appId := some "app1", senderId := none, channel := none }

/-! ### Helper lemmas -/

theorem setAdd_ne_nil (s : List String) (sid : String) : setAdd s sid ≠ [] := by
  unfold setAdd
  split
  · rename_i hmem
    intro hnil
    rw [hnil] at hmem
    exact List.not_mem_nil sid hmem
  · simp

theorem falsy_some (a : String) : falsy (some a) = (a == "") := rfl

/-! ### Claim C1 -/

/-- Claim C1 as stated is false on the code: with the transport
initialized and an empty registry (receiver offline, zero live
sessions), sendNotification still returns true — it never consults the
registry — and the POST route therefore reports delivered=true for a
receiver with zero live sessions. -/
theorem C1_claim_counterexample :
    isReceiverOnline [] "u1" = false
    ∧ sendNotification true "u1"
        { id := 1, type := "order", payload := .obj [],
          channel := "default", senderId := none, createdAt := 0 } = true
    ∧ (routerPost [] true 1 0
        { receiverId := some "u1", type := some "order", payload := none,
          appId := none, senderId := none, channel := none }).2.1 =
      PostRes.created
        { id := 1, receiverId := "u1", type := "order", payload := .obj [],
          read := false, appId := none, senderId := none,
          channel := "default", createdAt := 0, updatedAt := 0 } true := by
  refine ⟨rfl, rfl, rfl⟩

/-- Claim C1 (amended): sendNotification ignores the connection
registry: it returns true exactly when the transport layer is
initialized, whatever the registry says; in particular a valid creation
for a receiver with zero live sessions returns delivered equal to the
initialization flag — true, not false, once the transport is up. -/
theorem C1_amended_delivered_is_init (ioInitialized : Bool)
    (receiverId : String) (event : PushEvent) (st : Store)
    (nextId now : Nat) (req : CreateReq)
    (hr : falsy req.receiverId = false) (ht : falsy req.type = false) :
    sendNotification ioInitialized receiverId event = ioInitialized
    ∧ ∃ n, (routerPost st ioInitialized nextId now req).2.1 =
        PostRes.created n ioInitialized := by
  constructor
  · cases ioInitialized <;> rfl
  · unfold routerPost
    rw [hr, ht]
    simp only [Bool.or_self, Bool.false_or, if_neg Bool.false_ne_true]
    cases ioInitialized <;> exact ⟨_, rfl⟩

/-- Witness for the amended C1 at a concrete input. -/
theorem C1_amended_delivered_is_init_witness :
    falsy sampleReq.receiverId = false ∧ falsy sampleReq.type = false
    ∧ (sendNotification true "u1"
        { id := 1, type := "order", payload := .obj [],
          channel := "default", senderId := none, createdAt := 0 } = true
       ∧ ∃ n, (routerPost [] true 1 0 sampleReq).2.1 =
           PostRes.created n true) :=
  ⟨rfl, rfl,
    C1_amended_delivered_is_init true "u1"
      { id := 1, type := "order", payload := .obj [],
        channel := "default", senderId := none, createdAt := 0 }
      [] 1 0 sampleReq rfl rfl⟩

/-! ### Claim C2 -/

/-- Claim C2 as stated is false on the code: unsubscribe removes the
socket id from the receiver's set but never prunes the entry, so the
reachable state after one subscribe followed by one unsubscribe holds
the empty set. -/
theorem C2_claim_counterexample :
    runRegOps [RegOp.sub "u1" "s1", RegOp.unsub "u1" "s1"] = [("u1", [])]
    ∧ ¬ NoEmptySets (runRegOps [RegOp.sub "u1" "s1", RegOp.unsub "u1" "s1"]) := by
  constructor
  · rfl
  · decide

/-- Claim C2 (amended): subscribe preserves the no-empty-sets invariant,
and disconnect establishes it on any state whatsoever — including the
empty-set states unsubscribe can leave behind; unsubscribe itself does
not prune and is the sole offender. -/
theorem C2_amended_no_empty_sets (reg reg2 : Registry) (h : NoEmptySets reg)
    (r sid sid2 : String) :
    NoEmptySets (subscribe reg r sid) ∧ NoEmptySets (onDisconnect reg2 sid2) := by
  constructor
  · unfold subscribe
    split
    · exact h
    · cases hl : lookupSet reg r with
      | none =>
        intro e he
        rcases List.mem_append.mp he with hin | hin
        · exact h e hin
        · rcases List.mem_singleton.mp hin with rfl
          exact setAdd_ne_nil [] sid
      | some s =>
        intro e he
        unfold updateSet at he
        rcases List.mem_map.mp he with ⟨e0, he0, hfe⟩
        by_cases hk : (e0.1 == r) = true
        · rw [if_pos hk] at hfe
          rw [← hfe]
          exact setAdd_ne_nil s sid
        · rw [if_neg hk] at hfe
          rw [← hfe]
          exact h e0 he0
  · intro e he
    unfold onDisconnect at he
    have := (List.mem_filter.mp he).2
    simpa [List.isEmpty_iff] using this

/-- Witness for the amended C2: disconnect is applied to a state already
holding an empty set (as unsubscribe leaves behind) and still yields the
invariant. -/
theorem C2_amended_no_empty_sets_witness :
    NoEmptySets [("u1", ["s1"])]
    ∧ (NoEmptySets (subscribe [("u1", ["s1"])] "u2" "s2")
       ∧ NoEmptySets (onDisconnect [("u1", []), ("u2", ["s1", "s2"])] "s1")) :=
  ⟨by decide, C2_amended_no_empty_sets [("u1", ["s1"])]
    [("u1", []), ("u2", ["s1", "s2"])] (by decide) "u2" "s2" "s1"⟩

/-! ### Claim C8 -/

/-- Claim C8: the POST route answers 400 exactly when receiverId or type
is missing or empty, and any request with both present and non-empty
yields the 201 created outcome. -/
theorem C8_create_validation (st : Store) (ioInit : Bool) (nextId now : Nat)
    (req : CreateReq) :
    ((∃ msg, (routerPost st ioInit nextId now req).2.1 = PostRes.badRequest msg)
      ↔ (falsy req.receiverId = true ∨ falsy req.type = true))
    ∧ (falsy req.receiverId = false → falsy req.type = false →
        ∃ n d, (routerPost st ioInit nextId now req).2.1 = PostRes.created n d) := by
  unfold routerPost
  by_cases h1 : falsy req.receiverId <;> by_cases h2 : falsy req.type <;>
    simp [h1, h2]

/-- Witness for C8 at a concrete valid request. -/
theorem C8_create_validation_witness :
    ((∃ msg, (routerPost [] true 1 0 sampleReq).2.1 = PostRes.badRequest msg)
      ↔ (falsy sampleReq.receiverId = true ∨ falsy sampleReq.type = true))
    ∧ (falsy sampleReq.receiverId = false → falsy sampleReq.type = false →
        ∃ n d, (routerPost [] true 1 0 sampleReq).2.1 = PostRes.created n d) :=
  C8_create_validation [] true 1 0 sampleReq

/-! ### Claim C9 -/

/-- Claim C9: every valid creation stores and returns a document with
read=false, with channel "default" when the request omits channel, and
with the empty-object payload when the request omits payload. -/
theorem C9_created_defaults (st : Store) (ioInit : Bool) (nextId now : Nat)
    (req : CreateReq) (hr : falsy req.receiverId = false)
    (ht : falsy req.type = false) :
    ∃ n d, (routerPost st ioInit nextId now req).2.1 = PostRes.created n d
      ∧ n.read = false
      ∧ (req.channel = none → n.channel = "default")
      ∧ (req.payload = none → n.payload = Json.obj []) := by
  unfold routerPost
  rw [hr, ht]
  simp only [Bool.or_self, Bool.false_or, if_neg Bool.false_ne_true]
  refine ⟨_, _, rfl, rfl, ?_, ?_⟩
  · intro hc; rw [hc]; rfl
  · intro hp; rw [hp]

/-! ### Claim C4 -/

/-- Claim C4: mark-all-read flips read exactly on the documents matching
receiverId, appId, read=false and the supplied type/channel filters
(refreshing their updatedAt), leaves every other document unchanged,
reports the number of matching documents, and an immediately repeated
call with the same arguments reports modifiedCount=0. -/
theorem C4_markAllRead_frame_idem (st : Store) (receiverId a : String)
    (typeQ channelQ : Option String) (now now2 : Nat) (ha : a ≠ "") :
    (routerPatchReadAll st receiverId (some a) typeQ channelQ now).2 =
      ReadAllRes.ok
        (st.countP (fun n => matchesReadAll n receiverId a typeQ channelQ))
    ∧ List.Forall₂ (fun n n2 =>
        n2 = if matchesReadAll n receiverId a typeQ channelQ
             then { n with read := true, updatedAt := now } else n)
        st (routerPatchReadAll st receiverId (some a) typeQ channelQ now).1
    ∧ (routerPatchReadAll
        (routerPatchReadAll st receiverId (some a) typeQ channelQ now).1
        receiverId (some a) typeQ channelQ now2).2 = ReadAllRes.ok 0 := by
  have hfa : falsy (some a) = false := by
    rw [falsy_some]
    exact beq_eq_false_iff_ne.mpr ha
  unfold routerPatchReadAll
  rw [hfa]
  simp only [Bool.false_eq_true, if_false, Option.getD_some]
  refine ⟨by trivial, ?_, ?_⟩
  · rw [List.forall₂_map_right_iff, List.forall₂_same]
    intro n hn
    rfl
  · rw [List.countP_map]
    refine congrArg ReadAllRes.ok ?_
    rw [List.countP_eq_zero]
    intro n hn
    by_cases hm : matchesReadAll n receiverId a typeQ channelQ = true
    · simp only [Function.comp_apply]
      rw [if_pos hm]
      simp [matchesReadAll]
    · simp only [Function.comp_apply]
      rw [if_neg hm]
      exact hm

/-- Witness for C4 at a concrete one-document store. -/
theorem C4_markAllRead_frame_idem_witness :
    "app1" ≠ ""
    ∧ ((routerPatchReadAll [sampleDoc] "u1" (some "app1") none none 20).2 =
        ReadAllRes.ok
          (List.countP (fun n => matchesReadAll n "u1" "app1" none none)
            [sampleDoc])
      ∧ List.Forall₂ (fun n n2 =>
          n2 = if matchesReadAll n "u1" "app1" none none
               then { n with read := true, updatedAt := 20 } else n)
          [sampleDoc]
          (routerPatchReadAll [sampleDoc] "u1" (some "app1") none none 20).1
      ∧ (routerPatchReadAll
          (routerPatchReadAll [sampleDoc] "u1" (some "app1") none none 20).1
          "u1" (some "app1") none none 30).2 = ReadAllRes.ok 0) :=
  ⟨by decide, C4_markAllRead_frame_idem [sampleDoc] "u1" "app1" none none 20 30
    (by decide)⟩

/-! ### Claim C7 -/

theorem find?_id_map (st : Store) (k : Nat) (f : Notification → Notification)
    (hid : ∀ m, (f m).id = m.id) :
    (st.map f).find? (fun n => n.id == k) =
      Option.map f (st.find? (fun n => n.id == k)) := by
  have hpf : ((fun n : Notification => n.id == k) ∘ f) =
      (fun n : Notification => n.id == k) := by
    funext m
    simp only [Function.comp_apply, hid m]
  rw [List.find?_map, hpf]

theorem readOf_map_monotone (st : Store) (id : Nat)
    (f : Notification → Notification)
    (hid : ∀ m, (f m).id = m.id)
    (hrd : ∀ m, (f m).read = m.read ∨ (f m).read = true)
    (h : readOf st id = some true) : readOf (st.map f) id = some true := by
  unfold readOf at h ⊢
  rw [find?_id_map st id f hid]
  cases hfind : st.find? (fun n => n.id == id) with
  | none => rw [hfind] at h; simp at h
  | some m =>
    rw [hfind] at h
    simp only [Option.map_some'] at h ⊢
    rcases hrd m with h2 | h2
    · rw [h2]; exact h
    · rw [h2]

theorem readOf_append_right (st l2 : Store) (id : Nat)
    (h : readOf st id = some true) : readOf (st ++ l2) id = some true := by
  unfold readOf at h ⊢
  rw [List.find?_append]
  cases hfind : st.find? (fun n => n.id == id) with
  | none => rw [hfind] at h; simp at h
  | some m => rw [hfind] at h; simpa using h

/-- Claim C7: through every store-mutating operation of the HTTP surface
the read flag never returns from true to false, and marking an
already-read notification succeeds, returns that document with only
updatedAt refreshed, and leaves every stored read flag as it was. -/
theorem C7_read_monotone_markRead_idem :
    (∀ (st : Store) (op : SysOp) (id : Nat),
        readOf st id = some true → readOf (applySysOp st op) id = some true)
    ∧ (∀ (st : Store) (id now : Nat) (n : Notification),
        st.find? (fun m => m.id == id) = some n → n.read = true →
        (routerPatchRead st id now).2 =
          MarkReadRes.ok { n with updatedAt := now }
        ∧ ∀ k, readOf (routerPatchRead st id now).1 k = readOf st k) := by
  constructor
  · intro st op id h
    cases op with
    | post ioInit nextId now req =>
      show readOf (routerPost st ioInit nextId now req).1 id = some true
      unfold routerPost
      by_cases hv : (falsy req.receiverId || falsy req.type) = true
      · simpa [hv] using h
      · simp only [Bool.not_eq_true] at hv
        simp only [hv, Bool.false_eq_true, if_false]
        exact readOf_append_right st _ id h
    | markRead id0 now =>
      show readOf (routerPatchRead st id0 now).1 id = some true
      unfold routerPatchRead
      cases hfind : st.find? (fun n => n.id == id0) with
      | none => exact h
      | some n =>
        refine readOf_map_monotone st id _ ?_ ?_ h
        · intro m
          by_cases hm : (m.id == id0) = true <;> simp [hm, markReadDoc]
        · intro m
          by_cases hm : (m.id == id0) = true
          · right; simp [hm, markReadDoc]
          · left; simp [hm]
    | markAllRead r appId typeQ channelQ now =>
      show readOf (routerPatchReadAll st r appId typeQ channelQ now).1 id =
        some true
      unfold routerPatchReadAll
      by_cases hv : falsy appId = true
      · simpa [hv] using h
      · simp only [Bool.not_eq_true] at hv
        simp only [hv, Bool.false_eq_true, if_false]
        refine readOf_map_monotone st id _ ?_ ?_ h
        · intro m
          by_cases hm : matchesReadAll m r (appId.getD "") typeQ channelQ =
              true <;> simp [hm]
        · intro m
          by_cases hm : matchesReadAll m r (appId.getD "") typeQ channelQ =
              true
          · right; simp [hm]
          · left; simp [hm]
  · intro st id now n hfind hread
    unfold routerPatchRead
    rw [hfind]
    constructor
    · have heq : markReadDoc n now = { n with updatedAt := now } := by
        unfold markReadDoc
        obtain ⟨i0, r0, t0, p0, rd0, a0, s0, c0, ca0, ua0⟩ := n
        simp only at hread
        rw [hread]
      rw [← heq]
    · intro k
      unfold readOf
      rw [find?_id_map st k _ (fun m => by
        by_cases hm : (m.id == id) = true <;> simp [hm, markReadDoc])]
      cases hfind2 : st.find? (fun m => m.id == k) with
      | none => rfl
      | some m =>
        simp only [Option.map_some']
        by_cases hm : (m.id == id) = true
        · have hk := List.find?_some hfind2
          have hkid : k = id := by
            have h1 := beq_iff_eq.mp hm
            have h2 : m.id = k := beq_iff_eq.mp hk
            omega
          subst hkid
          have : m = n := by
            rw [hfind2] at hfind
            exact Option.some.inj hfind
          subst this
          simp [hm, markReadDoc, hread]
        · simp [hm]

/-- Witness for C7: a concrete already-read document, marked read again. -/
theorem C7_read_monotone_markRead_idem_witness :
    readOf [{ sampleDoc with read := true }] 1 = some true
    ∧ readOf
        (applySysOp [{ sampleDoc with read := true }] (SysOp.markRead 1 30)) 1 =
      some true
    ∧ List.find? (fun m => m.id == 1) [{ sampleDoc with read := true }] =
        some { sampleDoc with read := true }
    ∧ ((routerPatchRead [{ sampleDoc with read := true }] 1 30).2 =
        MarkReadRes.ok { sampleDoc with read := true, updatedAt := 30 }
       ∧ ∀ k, readOf (routerPatchRead [{ sampleDoc with read := true }] 1 30).1
          k = readOf [{ sampleDoc with read := true }] k) := by
  refine ⟨by rfl, ?_, by rfl, ?_⟩
  · exact C7_read_monotone_markRead_idem.1 [{ sampleDoc with read := true }]
      (SysOp.markRead 1 30) 1 (by rfl)
  · exact C7_read_monotone_markRead_idem.2 [{ sampleDoc with read := true }]
      1 30 { sampleDoc with read := true } (by rfl) (by rfl)

/-! ### Claim C3 -/

theorem lookupSet_eq_none_iff (reg : Registry) (r : String) :
    lookupSet reg r = none ↔ ∀ e ∈ reg, e.1 ≠ r := by
  unfold lookupSet
  rw [Option.map_eq_none', List.find?_eq_none]
  constructor
  · intro h e he
    have := h e he
    simpa using this
  · intro h e he
    simpa using h e he

theorem lookupSet_onDisconnect_none (reg : Registry) (sid r : String)
    (h : lookupSet reg r = none) :
    lookupSet (onDisconnect reg sid) r = none := by
  rw [lookupSet_eq_none_iff] at h ⊢
  intro e he
  unfold onDisconnect at he
  rcases List.mem_map.mp (List.mem_filter.mp he).1 with ⟨e0, he0, hfe⟩
  rw [← hfe]
  exact h e0 he0

instance (reg : Registry) : Decidable (KeysNodup reg) := by
  unfold KeysNodup
  infer_instance

theorem lookupSet_cons_pos (k : String) (s : List String) (t : Registry)
    (r : String) (hk : (k == r) = true) :
    lookupSet ((k, s) :: t) r = some s := by
  unfold lookupSet
  rw [@List.find?_cons_of_pos (String × List String)
    (fun e => e.1 == r) (k, s) t hk]
  rfl

theorem lookupSet_cons_neg (k : String) (s : List String) (t : Registry)
    (r : String) (hk : (k == r) = false) :
    lookupSet ((k, s) :: t) r = lookupSet t r := by
  unfold lookupSet
  rw [@List.find?_cons_of_neg (String × List String)
    (fun e => e.1 == r) (k, s) t
    (by show ¬(k == r) = true; rw [hk]; exact Bool.false_ne_true)]

theorem lookupSet_onDisconnect (reg : Registry) (h : KeysNodup reg)
    (sid r : String) :
    lookupSet (onDisconnect reg sid) r =
      (lookupSet reg r).bind (fun s =>
        if setDelete s sid = [] then none else some (setDelete s sid)) := by
  induction reg with
  | nil => rfl
  | cons e t ih =>
    obtain ⟨k, s⟩ := e
    have hnd := h
    unfold KeysNodup at hnd
    rw [List.map_cons, List.nodup_cons] at hnd
    have htN : KeysNodup t := hnd.2
    have hkNot : k ∉ t.map Prod.fst := hnd.1
    unfold onDisconnect
    rw [List.map_cons, List.filter_cons]
    by_cases hk : (k == r) = true
    · rw [lookupSet_cons_pos k s t r hk, Option.some_bind]
      by_cases hdel : setDelete s sid = []
      · have hcond : (!((k, s).1, setDelete (k, s).2 sid).2.isEmpty) = false := by
          show (!(setDelete s sid).isEmpty) = false
          rw [hdel]
          rfl
        rw [if_neg (by rw [hcond]; exact Bool.false_ne_true), if_pos hdel]
        apply lookupSet_onDisconnect_none
        rw [lookupSet_eq_none_iff]
        intro e2 he2 hcontra
        apply hkNot
        have hmem := List.mem_map_of_mem Prod.fst he2
        rw [hcontra, ← beq_iff_eq.mp hk] at hmem
        exact hmem
      · have hisF : (setDelete s sid).isEmpty = false := by
          rw [← Bool.not_eq_true]
          intro hc
          exact hdel (List.isEmpty_iff.mp hc)
        have hcond : (!((k, s).1, setDelete (k, s).2 sid).2.isEmpty) = true := by
          show (!(setDelete s sid).isEmpty) = true
          rw [hisF]
          rfl
        rw [if_pos hcond, if_neg hdel]
        exact lookupSet_cons_pos (k, s).1 (setDelete (k, s).2 sid) _ r hk
    · have hkF : (k == r) = false := by
        rw [Bool.not_eq_true] at hk
        exact hk
      rw [lookupSet_cons_neg k s t r hkF]
      by_cases hsurv : (!((k, s).1, setDelete (k, s).2 sid).2.isEmpty) = true
      · rw [if_pos hsurv,
          lookupSet_cons_neg (k, s).1 (setDelete (k, s).2 sid) _ r hkF]
        exact ih htN
      · rw [if_neg hsurv]
        exact ih htN

theorem keys_updateSet (reg : Registry) (r : String) (s : List String) :
    (updateSet reg r s).map Prod.fst = reg.map Prod.fst := by
  unfold updateSet
  rw [List.map_map]
  apply List.map_congr_left
  intro e he
  by_cases hk : e.1 = r
  · simp [hk]
  · simp [hk]

/-- Every handler preserves distinctness of the registry keys, so the
Nodup hypothesis of the disconnect lemma holds of every reachable
state. -/
theorem keysNodup_applyRegOp (reg : Registry) (h : KeysNodup reg)
    (op : RegOp) : KeysNodup (applyRegOp reg op) := by
  cases op with
  | sub r sid =>
    show KeysNodup (subscribe reg r sid)
    unfold subscribe
    split
    · exact h
    · cases hl : lookupSet reg r with
      | none =>
        unfold KeysNodup at h ⊢
        rw [List.map_append, List.nodup_append]
        refine ⟨h, List.nodup_singleton r, ?_⟩
        intro x hx hx2
        rcases List.mem_map.mp hx with ⟨e, he, hfe⟩
        have hx3 : x = r := by simpa using hx2
        rw [lookupSet_eq_none_iff] at hl
        exact hl e he (by rw [hfe, hx3])
      | some s =>
        unfold KeysNodup
        rw [keys_updateSet]
        exact h
  | unsub r sid =>
    show KeysNodup (unsubscribe reg r sid)
    unfold unsubscribe
    cases lookupSet reg r with
    | none => exact h
    | some s =>
      unfold KeysNodup
      rw [keys_updateSet]
      exact h
  | disc sid =>
    show KeysNodup (onDisconnect reg sid)
    unfold KeysNodup at h ⊢
    unfold onDisconnect
    have hsub : List.Sublist
        (List.map Prod.fst ((reg.map (fun e => (e.1, setDelete e.2 sid))).filter
          (fun e => !e.2.isEmpty)))
        (List.map Prod.fst (reg.map (fun e => (e.1, setDelete e.2 sid)))) :=
      List.Sublist.map Prod.fst (List.filter_sublist _)
    have hkeys : List.map Prod.fst
        (reg.map (fun e => (e.1, setDelete e.2 sid))) = reg.map Prod.fst := by
      rw [List.map_map]
      apply List.map_congr_left
      intro e he
      rfl
    rw [hkeys] at hsub
    exact List.Nodup.sublist hsub h

/-- Every state reachable from the empty registry has distinct keys. -/
theorem keysNodup_runRegOps (ops : List RegOp) : KeysNodup (runRegOps ops) := by
  unfold runRegOps
  have haux : ∀ (l : List RegOp) (reg : Registry), KeysNodup reg →
      KeysNodup (l.foldl applyRegOp reg) := by
    intro l
    induction l with
    | nil => intro reg hreg; exact hreg
    | cons op t ih =>
      intro reg hreg
      exact ih (applyRegOp reg op) (keysNodup_applyRegOp reg hreg op)
  exact haux ops [] (by unfold KeysNodup; exact List.nodup_nil)

/-- Claim C3: isOnline is true exactly on the receivers holding a
non-empty set; after a session's disconnect, a receiver whose every
tracked session id was that session reports offline, and a receiver
keeping a session id distinct from the disconnected one stays online. -/
theorem C3_disconnect_presence (reg : Registry) (h : KeysNodup reg)
    (sid receiverId : String) :
    (isReceiverOnline reg receiverId = true ↔
      ∃ s, lookupSet reg receiverId = some s ∧ s ≠ [])
    ∧ (∀ s, lookupSet reg receiverId = some s → (∀ x ∈ s, x = sid) →
        isReceiverOnline (onDisconnect reg sid) receiverId = false)
    ∧ (lookupSet reg receiverId = none →
        isReceiverOnline (onDisconnect reg sid) receiverId = false)
    ∧ (∀ s, lookupSet reg receiverId = some s → (∃ x ∈ s, x ≠ sid) →
        isReceiverOnline (onDisconnect reg sid) receiverId = true) := by
  refine ⟨?_, ?_, ?_, ?_⟩
  · unfold isReceiverOnline
    cases hl : lookupSet reg receiverId with
    | none => simp
    | some s => simp [List.length_pos]
  · intro s hs hall
    have hdel : setDelete s sid = [] := by
      unfold setDelete
      rw [List.filter_eq_nil_iff]
      intro x hx
      simp [hall x hx]
    unfold isReceiverOnline
    rw [lookupSet_onDisconnect reg h sid receiverId, hs, Option.some_bind,
      if_pos hdel]
  · intro hnone
    unfold isReceiverOnline
    rw [lookupSet_onDisconnect reg h sid receiverId, hnone, Option.none_bind]
  · intro s hs hex
    have hdel : setDelete s sid ≠ [] := by
      unfold setDelete
      rw [Ne, List.filter_eq_nil_iff]
      intro hall
      rcases hex with ⟨x, hx, hne⟩
      exact (hall x hx) (by simpa using hne)
    unfold isReceiverOnline
    rw [lookupSet_onDisconnect reg h sid receiverId, hs, Option.some_bind,
      if_neg hdel]
    simp [List.length_pos, hdel]

/-- Witness for C3 on a concrete registry with two receivers sharing one
session. -/
theorem C3_disconnect_presence_witness :
    KeysNodup [("u1", ["s1"]), ("u2", ["s1", "s2"])]
    ∧ isReceiverOnline
        (onDisconnect [("u1", ["s1"]), ("u2", ["s1", "s2"])] "s1") "u1" = false
    ∧ isReceiverOnline
        (onDisconnect [("u1", ["s1"]), ("u2", ["s1", "s2"])] "s1") "u2" =
      true := by
  refine ⟨by decide, ?_, ?_⟩
  · exact (C3_disconnect_presence [("u1", ["s1"]), ("u2", ["s1", "s2"])]
      (by decide) "s1" "u1").2.1 ["s1"] (by decide) (by decide)
  · exact (C3_disconnect_presence [("u1", ["s1"]), ("u2", ["s1", "s2"])]
      (by decide) "s1" "u2").2.2.2 ["s1", "s2"] (by decide)
      ⟨"s2", by decide, by decide⟩

/-! ### Claims C6 and C10: the GET route -/

theorem routerGet_ok_inv (st : Store) (reg : Registry) (receiverId a : String)
    (q : ListQuery) (hq : q.appId = some a)
    (ns : List Notification) (total unread : Nat) (onl : Bool)
    (hok : routerGet st reg receiverId q = ListRes.ok ns total unread onl) :
    ns = ((sortNewestFirst (st.filter
        (fun n => matchesListQuery n receiverId a q))).drop q.skip).take q.limit
    ∧ total = st.countP (fun n => matchesBase n receiverId a)
    ∧ unread = st.countP
        (fun n => matchesBase n receiverId a && n.read == false)
    ∧ onl = isReceiverOnline reg receiverId := by
  unfold routerGet at hok
  by_cases hf : falsy q.appId = true
  · rw [if_pos hf] at hok
    exact ListRes.noConfusion hok
  · rw [if_neg hf, hq] at hok
    simp only [Option.getD_some] at hok
    injection hok with h1 h2 h3 h4
    exact ⟨h1.symm, h2.symm, h3.symm, h4.symm⟩

theorem insertDesc_perm (n : Notification) (l : List Notification) :
    (insertDesc n l).Perm (n :: l) := by
  induction l with
  | nil => exact List.Perm.refl _
  | cons m t ih =>
    unfold insertDesc
    split
    · exact List.Perm.refl _
    · exact (List.Perm.cons m ih).trans (List.Perm.swap n m t)

theorem sortNewestFirst_perm (l : List Notification) :
    (sortNewestFirst l).Perm l := by
  induction l with
  | nil => exact List.Perm.refl _
  | cons n t ih =>
    unfold sortNewestFirst
    exact (insertDesc_perm n (sortNewestFirst t)).trans (List.Perm.cons n ih)

theorem mem_listPage (st : Store) (receiverId a : String) (q : ListQuery)
    (n : Notification)
    (hn : n ∈ ((sortNewestFirst (st.filter
        (fun m => matchesListQuery m receiverId a q))).drop q.skip).take
          q.limit) :
    n ∈ st ∧ matchesListQuery n receiverId a q = true := by
  have h1 := List.mem_of_mem_drop (List.mem_of_mem_take hn)
  have h2 := (sortNewestFirst_perm _).mem_iff.mp h1
  exact List.mem_filter.mp h2

/-- Claim C6: an ok list response for a given appId contains only
documents stored with exactly that appId; a document with a different
appId, or stored with appId omitted (null), never appears. -/
theorem C6_list_tenant_isolation (st : Store) (reg : Registry)
    (receiverId a : String) (q : ListQuery) (hq : q.appId = some a)
    (ns : List Notification) (total unread : Nat) (onl : Bool)
    (hok : routerGet st reg receiverId q = ListRes.ok ns total unread onl) :
    ∀ n ∈ ns, n.appId = some a := by
  intro n hn
  obtain ⟨hns, -, -, -⟩ :=
    routerGet_ok_inv st reg receiverId a q hq ns total unread onl hok
  rw [hns] at hn
  have hm := (mem_listPage st receiverId a q n hn).2
  unfold matchesListQuery matchesBase at hm
  simp only [Bool.and_eq_true, beq_iff_eq] at hm
  exact hm.1.1.1.2

/-- Witness for C6 on a concrete two-tenant store. -/
theorem C6_list_tenant_isolation_witness :
    (ListQuery.mk (some "app1") none none none 50 0).appId = some "app1"
    ∧ routerGet [sampleDoc, { sampleDoc with id := 2, appId := some "app2" },
          { sampleDoc with id := 3, appId := none }] []
        "u1" (ListQuery.mk (some "app1") none none none 50 0) =
      ListRes.ok [sampleDoc] 1 1 false
    ∧ ∀ n ∈ [sampleDoc], n.appId = some "app1" := by
  refine ⟨rfl, by rfl, ?_⟩
  exact C6_list_tenant_isolation
    [sampleDoc, { sampleDoc with id := 2, appId := some "app2" },
      { sampleDoc with id := 3, appId := none }] []
    "u1" "app1" (ListQuery.mk (some "app1") none none none 50 0) rfl
    [sampleDoc] 1 1 false (by rfl)

/-- Claim C10: in an ok list response, total counts every document
matching receiverId and appId alone, unreadCount those among them with
read=false, both independent of the unreadOnly, type and channel
parameters, which restrict only the notifications array (every returned
document satisfies them). -/
theorem C10_counts_filter_independent (st : Store) (reg : Registry)
    (receiverId a : String) (q : ListQuery) (hq : q.appId = some a)
    (ns : List Notification) (total unread : Nat) (onl : Bool)
    (hok : routerGet st reg receiverId q = ListRes.ok ns total unread onl) :
    total = st.countP (fun n => matchesBase n receiverId a)
    ∧ unread = st.countP
        (fun n => matchesBase n receiverId a && n.read == false)
    ∧ (∀ n ∈ ns, matchesListQuery n receiverId a q = true)
    ∧ ∀ (q2 : ListQuery), q2.appId = some a →
        ∀ ns2 total2 unread2 onl2,
          routerGet st reg receiverId q2 = ListRes.ok ns2 total2 unread2 onl2 →
          total2 = total ∧ unread2 = unread := by
  obtain ⟨hns, htotal, hunread, -⟩ :=
    routerGet_ok_inv st reg receiverId a q hq ns total unread onl hok
  refine ⟨htotal, hunread, ?_, ?_⟩
  · intro n hn
    rw [hns] at hn
    exact (mem_listPage st receiverId a q n hn).2
  · intro q2 hq2 ns2 total2 unread2 onl2 hok2
    obtain ⟨-, htotal2, hunread2, -⟩ :=
      routerGet_ok_inv st reg receiverId a q2 hq2 ns2 total2 unread2 onl2 hok2
    rw [htotal, hunread, htotal2, hunread2]
    exact ⟨rfl, rfl⟩

/-- Witness for C10 on a concrete store with an unreadOnly filter. -/
theorem C10_counts_filter_independent_witness :
    (ListQuery.mk (some "app1") (some "true") none none 50 0).appId =
      some "app1"
    ∧ routerGet [sampleDoc, { sampleDoc with id := 2, read := true }] []
        "u1" (ListQuery.mk (some "app1") (some "true") none none 50 0) =
      ListRes.ok [sampleDoc] 2 1 false
    ∧ (1 = List.countP
        (fun n => matchesBase n "u1" "app1" && n.read == false)
        [sampleDoc, { sampleDoc with id := 2, read := true }]) := by
  refine ⟨rfl, by rfl, ?_⟩
  exact (C10_counts_filter_independent
    [sampleDoc, { sampleDoc with id := 2, read := true }] []
    "u1" "app1" (ListQuery.mk (some "app1") (some "true") none none 50 0) rfl
    [sampleDoc] 2 1 false (by rfl)).2.1

/-! ### Claim C5 -/

/-- Claim C5: within one valid createAndDeliver call, every push-attempt
effect is preceded by the persist effect of the same document, and —
whatever the delivered outcome — the created document is retrievable
through the list route with its receiverId and appId (first page of the
matching size). -/
theorem C5_persist_before_push (st : Store) (ioInit : Bool) (nextId now : Nat)
    (req : CreateReq) (reg : Registry) (a : String)
    (hr : falsy req.receiverId = false) (ht : falsy req.type = false)
    (ha : req.appId = some a) (ha2 : a ≠ "") :
    (∀ (i : Nat) (r : String) (k : Nat),
        (routerPost st ioInit nextId now req).2.2.get? i =
          some (Effect.pushAttempt r k) →
        ∃ j, j < i ∧ (routerPost st ioInit nextId now req).2.2.get? j =
          some (Effect.persist k))
    ∧ ∃ n d, (routerPost st ioInit nextId now req).2.1 = PostRes.created n d
        ∧ ∃ ns total unread onl,
            routerGet (routerPost st ioInit nextId now req).1 reg
              (req.receiverId.getD "")
              { appId := some a, unreadOnly := none, type := none,
                channel := none,
                limit := (routerPost st ioInit nextId now req).1.length,
                skip := 0 } = ListRes.ok ns total unread onl
            ∧ n ∈ ns := by
  have hfa : falsy (some a) = false := by
    rw [falsy_some]
    exact beq_eq_false_iff_ne.mpr ha2
  unfold routerPost
  rw [hr, ht]
  simp only [Bool.or_self, if_neg Bool.false_ne_true]
  constructor
  · intro i r k hi
    match i with
    | 0 => exact absurd hi (by simp)
    | 1 =>
      refine ⟨0, Nat.zero_lt_one, ?_⟩
      simp only [List.get?] at hi ⊢
      injection hi with hi2
      injection hi2 with hi3 hi4
      rw [hi4]
    | (j + 2) => exact absurd hi (by simp [List.get?])
  · refine ⟨_, _, rfl, ?_⟩
    unfold routerGet
    rw [hfa]
    simp only [Bool.false_eq_true, if_false, Option.getD_some]
    refine ⟨_, _, _, _, rfl, ?_⟩
    rw [List.drop_zero, List.take_of_length_le]
    · rw [(sortNewestFirst_perm _).mem_iff]
      rw [List.mem_filter]
      constructor
      · exact List.mem_append_right st (List.mem_singleton.mpr rfl)
      · unfold matchesListQuery matchesBase truthyParam
        simp [ha]
    · calc (sortNewestFirst ((st ++ [_]).filter _)).length
          = ((st ++ [_]).filter _).length := (sortNewestFirst_perm _).length_eq
        _ ≤ (st ++ [_]).length := List.length_filter_le _ _

/-- Witness for C5 at a concrete valid request and empty store. -/
theorem C5_persist_before_push_witness :
    falsy sampleReq.receiverId = false ∧ falsy sampleReq.type = false
    ∧ sampleReq.appId = some "app1" ∧ "app1" ≠ ""
    ∧ ((∀ (i : Nat) (r : String) (k : Nat),
          (routerPost [] true 1 0 sampleReq).2.2.get? i =
            some (Effect.pushAttempt r k) →
          ∃ j, j < i ∧ (routerPost [] true 1 0 sampleReq).2.2.get? j =
            some (Effect.persist k))
      ∧ ∃ n d, (routerPost [] true 1 0 sampleReq).2.1 = PostRes.created n d
          ∧ ∃ ns total unread onl,
              routerGet (routerPost [] true 1 0 sampleReq).1 []
                (sampleReq.receiverId.getD "")
                { appId := some "app1", unreadOnly := none, type := none,
                  channel := none,
                  limit := (routerPost [] true 1 0 sampleReq).1.length,
                  skip := 0 } = ListRes.ok ns total unread onl
              ∧ n ∈ ns) :=
  ⟨rfl, rfl, rfl, by decide,
    C5_persist_before_push [] true 1 0 sampleReq [] "app1" rfl rfl rfl
      (by decide)⟩

/-- Witness for C9 at a concrete valid request omitting payload and
channel. -/
theorem C9_created_defaults_witness :
    falsy sampleReq.receiverId = false ∧ falsy sampleReq.type = false
    ∧ ∃ n d, (routerPost [] true 1 0 sampleReq).2.1 = PostRes.created n d
        ∧ n.read = false
        ∧ (sampleReq.channel = none → n.channel = "default")
        ∧ (sampleReq.payload = none → n.payload = Json.obj []) :=
  ⟨rfl, rfl, C9_created_defaults [] true 1 0 sampleReq rfl rfl⟩

end NotifApi
